import Mathlib

/-!
Verification development for the forwarding-rule syncer of
k8s-multicluster-ingress (app/kubemci/pkg/gcp/forwardingrule/forwardingrulesyncer.go).

The Go code is shallowly embedded: each provider-facing operation is a pure
function from the provider's response behaviour to a pair of (result, list of
mutating provider calls issued, in order). Go's in-place mutation of the live
resource inside forwardingRuleMatches is modelled by explicit state passing:
the function returns the updated live object, and EnsureHttpForwardingRule
threads that value onward exactly as the Go pointer aliasing does.
-/

/-- The zero-value relevant part of googleapi.ServerResponse (HTTP status code
and headers), provider-assigned response metadata carried on a fetched rule. -/
structure ServerResponse where
  HTTPStatusCode : Nat
  Header : List (String × String)
deriving DecidableEq, Repr

/-- The fields of compute.ForwardingRule that forwardingrulesyncer.go reads or
writes. All other fields of the Go struct are zero-valued in both the
synthesized desired rule and in every comparison the file performs. The last
five fields (CreationTimestamp, Id, Kind, SelfLink, ServerResponse) are the
provider-assigned ones that forwardingRuleMatches clears before comparing. -/
structure ForwardingRule where
  Name : String := ""
  Description : String := ""
  IPAddress : String := ""
  Target : String := ""
  PortRange : String := ""
  IPProtocol : String := ""
  LoadBalancingScheme : String := ""
  CreationTimestamp : String := ""
  Id : Nat := 0
  Kind : String := ""
  SelfLink : String := ""
  ServerResponse : ServerResponse := ⟨0, []⟩
deriving DecidableEq, Repr

/-- Provider-side errors: an HTTP-coded error (googleapi.Error) or any other
error. Mirrors the distinction utils.IsHTTPErrorCode relies on. -/
inductive PError where
  | http (code : Nat) (msg : String)
  | other (msg : String)
deriving DecidableEq, Repr

/-- utils.IsHTTPErrorCode(err, code): true iff err is a googleapi.Error
carrying exactly that HTTP code. -/
def isHTTPErrorCode (e : PError) (code : Nat) : Bool :=
  match e with
  | .http c _ => c == code
  | .other _ => false

/-- utils.IgnoreHTTPNotFound: maps an HTTP 404 error to success, passes
everything else through. -/
def ignoreHTTPNotFound (r : Option PError) : Option PError :=
  match r with
  | some e => if isHTTPErrorCode e 404 then none else some e
  | none => none

/-- Modelled from the spec: the status codec collaborator's record (§3
StatusRecord / status.LoadBalancerStatus, whose source is outside the given
file): human description, load-balancer name, member clusters, IP address. -/
structure LoadBalancerStatus where
  Description : String
  LoadBalancerName : String
  Clusters : List String
  IPAddress : String
deriving DecidableEq, Repr

/-- Modelled from the spec: the status codec collaborator's encode
(status.ToString, §6: encode(StatusRecord) -> string | EncodingError). A
deterministic field serialization standing in for the JSON marshalling, which
always succeeds on a plain record. -/
def LoadBalancerStatus.ToString (s : LoadBalancerStatus) : Except String String :=
  .ok (String.intercalate "|" ["MCIStatus", s.Description, s.LoadBalancerName,
    String.intercalate "," s.Clusters, s.IPAddress])

/-- Splitting a character list at a separator character (used by the
modelled decoder; structurally recursive). -/
def splitOnChar (c : Char) : List Char → List (List Char)
  | [] => [[]]
  | x :: xs =>
    match splitOnChar c xs with
    | [] => if x = c then [[], []] else [[x]]
    | y :: ys => if x = c then [] :: y :: ys else (x :: y) :: ys

/-- Modelled from the spec: the status codec collaborator's decode
(status.FromString, §6: decode(string) -> StatusRecord | DecodingError).
Fails on any string not produced by the encoder's shape. -/
def status.FromString (str : String) : Except String LoadBalancerStatus :=
  match (splitOnChar '|' str.data).map List.asString with
  | ["MCIStatus", d, lb, cl, ip] =>
    .ok ⟨d, lb, (splitOnChar ',' cl.data).map List.asString, ip⟩
  | _ => .error ("invalid status description: " ++ str)

/-- Modelled from the spec: the naming collaborator (§6), deterministic per
configured load-balancer identity; only HttpForwardingRuleName is consumed. -/
structure Namer where
  httpRuleName : String
deriving DecidableEq, Repr

def Namer.HttpForwardingRuleName (n : Namer) : String := n.httpRuleName

/-- The mutating provider calls the syncer can issue, in the order issued.
GetGlobalForwardingRule is a read and is deliberately not recorded. -/
inductive ProviderCall where
  | create (fr : ForwardingRule)
  | delete (name : String)
  | retarget (name : String) (target : String)
deriving DecidableEq, Repr

/-- The provider collaborator (ingresslb.LoadBalancers as consumed by this
file), as response behaviour: what each call returns when issued. `none`
means success for the mutating calls. -/
structure Provider where
  GetGlobalForwardingRule : String → Except PError ForwardingRule
  CreateGlobalForwardingRule : ForwardingRule → Option PError
  DeleteGlobalForwardingRule : String → Option PError
  SetProxyForGlobalForwardingRule : String → String → Option PError

/-- The distinct error returns of the syncer's ensure/delete entry points:
the wrapped status-encoding failure, the refusal without --force, the wrapped
failure of the delete inside the update path, and raw provider passthrough. -/
inductive SyncError where
  | encoding (msg : String)
  | rejectedWithoutForce
  | deleteExisting (name : String) (e : PError)
  | provider (e : PError)
deriving DecidableEq, Repr

/-- The distinct error returns of GetLoadBalancerStatus: the load balancer
does not exist (fetch returned HTTP 404), the fetch failed otherwise, or the
description could not be parsed. -/
inductive StatusError where
  | loadBalancerNotFound (lbName : String)
  | fetchError (e : PError)
  | statusUnavailable (parseErr : String)
deriving DecidableEq, Repr

def httpDefaultPortRange : String := "80-80"

def httpsDefaultPortRange : String := "443-443"

structure ForwardingRuleSyncer where
  namer : Namer
deriving DecidableEq, Repr

/-- desiredForwardingRule: sorts the clusters, builds the status record,
encodes it into the description, and assembles the desired rule with the
fixed port range, protocol and scheme. -/
def ForwardingRuleSyncer.desiredForwardingRule (s : ForwardingRuleSyncer)
    (lbName ipAddress targetProxyLink : String) (clusters : List String) :
    Except SyncError ForwardingRule :=
  let sorted := List.insertionSort (fun a b => a.data ≤ b.data) clusters
  let st : LoadBalancerStatus :=
    { Description := "Http forwarding rule for kubernetes multicluster loadbalancer " ++ lbName
      LoadBalancerName := lbName
      Clusters := sorted
      IPAddress := ipAddress }
  match st.ToString with
  | .error e => .error (.encoding e)
  | .ok desc =>
    .ok { Name := s.namer.HttpForwardingRuleName
          Description := desc
          IPAddress := ipAddress
          Target := targetProxyLink
          PortRange := httpDefaultPortRange
          IPProtocol := "TCP"
          LoadBalancingScheme := "EXTERNAL" }

/-- The field-clearing forwardingRuleMatches performs on the existing rule
before comparing: provider-assigned fields are zeroed. -/
def clearProviderFields (fr : ForwardingRule) : ForwardingRule :=
  { fr with CreationTimestamp := "", Id := 0, Kind := "", SelfLink := "",
            ServerResponse := ⟨0, []⟩ }

/-- forwardingRuleMatches: zeroes the provider-assigned fields of the
existing rule (in Go, in place through the pointer), then deep-compares it
with the desired rule. Returns the verdict together with the mutated
existing rule, which the caller's pointer now refers to. -/
def forwardingRuleMatches (desiredFR existingFR : ForwardingRule) :
    Bool × ForwardingRule :=
  let existingFR := clearProviderFields existingFR
  (decide (existingFR = desiredFR), existingFR)

/-- createForwardingRule: one provider create call, error passthrough. -/
def createForwardingRule (p : Provider) (desiredFR : ForwardingRule) :
    Except SyncError Unit × List ProviderCall :=
  match p.CreateGlobalForwardingRule desiredFR with
  | some e => (.error (.provider e), [.create desiredFR])
  | none => (.ok (), [.create desiredFR])

/-- updateForwardingRule: if IPAddress, PortRange, IPProtocol or Description
differ, delete the existing rule (tolerating HTTP 404) and recreate; else
retarget in place via SetProxyForGlobalForwardingRule. -/
def updateForwardingRule (p : Provider) (existingFR desiredFR : ForwardingRule) :
    Except SyncError Unit × List ProviderCall :=
  let name := desiredFR.Name
  if existingFR.IPAddress ≠ desiredFR.IPAddress ∨ existingFR.PortRange ≠ desiredFR.PortRange ∨
      existingFR.IPProtocol ≠ desiredFR.IPProtocol ∨ existingFR.Description ≠ desiredFR.Description then
    match ignoreHTTPNotFound (p.DeleteGlobalForwardingRule name) with
    | some e => (.error (.deleteExisting name e), [.delete name])
    | none =>
      let c := createForwardingRule p desiredFR
      (c.1, .delete name :: c.2)
  else
    match p.SetProxyForGlobalForwardingRule name desiredFR.Target with
    | some e => (.error (.provider e), [.retarget name desiredFR.Target])
    | none => (.ok (), [.retarget name desiredFR.Target])

/-- EnsureHttpForwardingRule: synthesize the desired rule, probe the provider
by name; on success of the probe compare (mutating the fetched rule) and
either finish, update under forceUpdate, or refuse; on any probe error fall
through to create. -/
def ForwardingRuleSyncer.EnsureHttpForwardingRule (s : ForwardingRuleSyncer)
    (p : Provider) (lbName ipAddress targetProxyLink : String)
    (clusters : List String) (forceUpdate : Bool) :
    Except SyncError Unit × List ProviderCall :=
  match s.desiredForwardingRule lbName ipAddress targetProxyLink clusters with
  | .error e => (.error e, [])
  | .ok desiredFR =>
    let name := desiredFR.Name
    match p.GetGlobalForwardingRule name with
    | .ok existingFR =>
      let res := forwardingRuleMatches desiredFR existingFR
      if res.1 then (.ok (), [])
      else if forceUpdate then updateForwardingRule p res.2 desiredFR
      else (.error .rejectedWithoutForce, [])
    | .error _ => createForwardingRule p desiredFR

/-- DeleteForwardingRules: one provider delete of the http rule name; any
error, 404 included, is returned unchanged. -/
def ForwardingRuleSyncer.DeleteForwardingRules (s : ForwardingRuleSyncer)
    (p : Provider) : Except SyncError Unit × List ProviderCall :=
  let name := s.namer.HttpForwardingRuleName
  match p.DeleteGlobalForwardingRule name with
  | some e => (.error (.provider e), [.delete name])
  | none => (.ok (), [.delete name])

/-- GetLoadBalancerStatus: fetch the rule; HTTP 404 means the load balancer
does not exist; any other fetch error is surfaced as such; otherwise decode
the description, surfacing a decode failure distinctly. -/
def ForwardingRuleSyncer.GetLoadBalancerStatus (s : ForwardingRuleSyncer)
    (p : Provider) (lbName : String) : Except StatusError LoadBalancerStatus :=
  let name := s.namer.HttpForwardingRuleName
  match p.GetGlobalForwardingRule name with
  | .error e =>
    if isHTTPErrorCode e 404 then .error (.loadBalancerNotFound lbName)
    else .error (.fetchError e)
  | .ok fr =>
    match status.FromString fr.Description with
    | .error pe => .error (.statusUnavailable pe)
    | .ok st => .ok st

/-- A functional model of the provider's store for sequencing two Ensure
calls: the rules that exist, by name. -/
def Store := String → Option ForwardingRule

/-- The store-backed provider: get and delete fail with HTTP 404 when the
name is absent, create succeeds, retarget succeeds when the name exists. -/
def storeProvider (st : Store) : Provider where
  GetGlobalForwardingRule n :=
    match st n with
    | some fr => .ok fr
    | none => .error (.http 404 "not found")
  CreateGlobalForwardingRule _ := none
  DeleteGlobalForwardingRule n :=
    match st n with
    | some _ => none
    | none => some (.http 404 "not found")
  SetProxyForGlobalForwardingRule n _ :=
    match st n with
    | some _ => none
    | none => some (.http 404 "not found")

/-- Effect of one mutating provider call on the store. -/
def applyCall (st : Store) : ProviderCall → Store
  | .create fr => fun n => if n = fr.Name then some fr else st n
  | .delete nm => fun n => if n = nm then none else st n
  | .retarget nm tgt => fun n =>
      if n = nm then (st n).map (fun fr => { fr with Target := tgt }) else st n

/-- Effect of a trace of mutating provider calls on the store, in order. -/
def applyCalls (st : Store) (cs : List ProviderCall) : Store :=
  cs.foldl applyCall st

/-! ## Helper lemmas -/

/-- desiredForwardingRule always succeeds (the modelled encoder is total) and
returns exactly this rule. -/
theorem ForwardingRuleSyncer.desiredForwardingRule_eq (s : ForwardingRuleSyncer)
    (lbName ipAddress targetProxyLink : String) (clusters : List String) :
    s.desiredForwardingRule lbName ipAddress targetProxyLink clusters =
      .ok { Name := s.namer.HttpForwardingRuleName
            Description := String.intercalate "|" ["MCIStatus",
              "Http forwarding rule for kubernetes multicluster loadbalancer " ++ lbName,
              lbName,
              String.intercalate ","
                (List.insertionSort (fun a b => a.data ≤ b.data) clusters),
              ipAddress]
            IPAddress := ipAddress
            Target := targetProxyLink
            PortRange := httpDefaultPortRange
            IPProtocol := "TCP"
            LoadBalancingScheme := "EXTERNAL" } := rfl

/-- Every rule produced by desiredForwardingRule has its provider-assigned
fields at their zero values, so clearing them is the identity; and its
configuration fields are the synthesized ones. -/
theorem desired_fields (s : ForwardingRuleSyncer)
    (lbName ipAddress targetProxyLink : String) (clusters : List String)
    (fr : ForwardingRule)
    (hd : s.desiredForwardingRule lbName ipAddress targetProxyLink clusters = .ok fr) :
    clearProviderFields fr = fr ∧ fr.Name = s.namer.HttpForwardingRuleName ∧
      fr.IPAddress = ipAddress ∧ fr.Target = targetProxyLink ∧
      fr.PortRange = "80-80" ∧ fr.IPProtocol = "TCP" ∧
      fr.LoadBalancingScheme = "EXTERNAL" := by
  rw [ForwardingRuleSyncer.desiredForwardingRule_eq] at hd
  cases hd
  exact ⟨rfl, rfl, rfl, rfl, rfl, rfl, rfl⟩

theorem clearProviderFields_config (fr : ForwardingRule) :
    (clearProviderFields fr).Name = fr.Name ∧
    (clearProviderFields fr).Description = fr.Description ∧
    (clearProviderFields fr).IPAddress = fr.IPAddress ∧
    (clearProviderFields fr).Target = fr.Target ∧
    (clearProviderFields fr).PortRange = fr.PortRange ∧
    (clearProviderFields fr).IPProtocol = fr.IPProtocol ∧
    (clearProviderFields fr).LoadBalancingScheme = fr.LoadBalancingScheme :=
  ⟨rfl, rfl, rfl, rfl, rfl, rfl, rfl⟩

/-! ## Claim theorems -/

/-- C4: if a live rule exists and does not match the desired one, Ensure with
forceUpdate = false performs zero mutating provider calls and returns the
rejected-without-force error. -/
theorem ensure_rejected_without_force (s : ForwardingRuleSyncer) (p : Provider)
    (lbName ipAddress targetProxyLink : String) (clusters : List String)
    (desiredFR existingFR : ForwardingRule)
    (hd : s.desiredForwardingRule lbName ipAddress targetProxyLink clusters = .ok desiredFR)
    (hget : p.GetGlobalForwardingRule desiredFR.Name = .ok existingFR)
    (hmis : (forwardingRuleMatches desiredFR existingFR).1 = false) :
    s.EnsureHttpForwardingRule p lbName ipAddress targetProxyLink clusters false =
      (.error .rejectedWithoutForce, []) := by
  simp only [ForwardingRuleSyncer.EnsureHttpForwardingRule, hd, hget, hmis,
    Bool.false_eq_true, if_false]

/-- C7: any error from the existence probe, HTTP 404 or not, makes Ensure
fall through to creation: the outcome is exactly createForwardingRule's, so
a not-found probe is never surfaced and any other fetch error surfaces only
through the create call's own result. -/
theorem ensure_fetch_error_falls_through_to_create (s : ForwardingRuleSyncer)
    (p : Provider) (lbName ipAddress targetProxyLink : String)
    (clusters : List String) (forceUpdate : Bool)
    (desiredFR : ForwardingRule) (e : PError)
    (hd : s.desiredForwardingRule lbName ipAddress targetProxyLink clusters = .ok desiredFR)
    (hget : p.GetGlobalForwardingRule desiredFR.Name = .error e) :
    s.EnsureHttpForwardingRule p lbName ipAddress targetProxyLink clusters forceUpdate =
      createForwardingRule p desiredFR := by
  simp only [ForwardingRuleSyncer.EnsureHttpForwardingRule, hd, hget]

/-- C9: the standalone DeleteForwardingRules surfaces every provider delete
error unchanged — HTTP 404 included — after issuing exactly the one delete
call. -/
theorem deleteForwardingRules_surfaces_all_errors (s : ForwardingRuleSyncer)
    (p : Provider) (e : PError)
    (h : p.DeleteGlobalForwardingRule s.namer.HttpForwardingRuleName = some e) :
    s.DeleteForwardingRules p =
      (.error (.provider e), [.delete s.namer.HttpForwardingRuleName]) := by
  simp only [ForwardingRuleSyncer.DeleteForwardingRules, h]

/-- C10: forwardingRuleMatches overwrites the live rule it is given: the
object the caller's pointer refers to after the call (the second component,
threaded onward by Ensure) has its provider-assigned fields permanently
zeroed, for every input and both verdicts, while its other fields are kept. -/
theorem forwardingRuleMatches_clears_live_fields (d e : ForwardingRule) :
    ((forwardingRuleMatches d e).2.CreationTimestamp = "" ∧
     (forwardingRuleMatches d e).2.Id = 0 ∧
     (forwardingRuleMatches d e).2.Kind = "" ∧
     (forwardingRuleMatches d e).2.SelfLink = "" ∧
     (forwardingRuleMatches d e).2.ServerResponse = ⟨0, []⟩) ∧
    ((forwardingRuleMatches d e).2.Name = e.Name ∧
     (forwardingRuleMatches d e).2.Description = e.Description ∧
     (forwardingRuleMatches d e).2.IPAddress = e.IPAddress ∧
     (forwardingRuleMatches d e).2.Target = e.Target ∧
     (forwardingRuleMatches d e).2.PortRange = e.PortRange ∧
     (forwardingRuleMatches d e).2.IPProtocol = e.IPProtocol ∧
     (forwardingRuleMatches d e).2.LoadBalancingScheme = e.LoadBalancingScheme) :=
  ⟨⟨rfl, rfl, rfl, rfl, rfl⟩, rfl, rfl, rfl, rfl, rfl, rfl, rfl⟩

/-- C6: the comparator returns true iff the live and desired rules agree on
every non-provider-assigned field and the desired rule's provider-assigned
fields are at their zero values (the live rule's own provider-assigned
fields are cleared first and so never matter). -/
theorem forwardingRuleMatches_iff (d e : ForwardingRule) :
    (forwardingRuleMatches d e).1 = true ↔
      (e.Name = d.Name ∧ e.Description = d.Description ∧
       e.IPAddress = d.IPAddress ∧ e.Target = d.Target ∧
       e.PortRange = d.PortRange ∧ e.IPProtocol = d.IPProtocol ∧
       e.LoadBalancingScheme = d.LoadBalancingScheme ∧
       d.CreationTimestamp = "" ∧ d.Id = 0 ∧ d.Kind = "" ∧ d.SelfLink = "" ∧
       d.ServerResponse = ⟨0, []⟩) := by
  cases d
  cases e
  simp only [forwardingRuleMatches, clearProviderFields, decide_eq_true_eq,
    ForwardingRule.mk.injEq]
  constructor
  · rintro ⟨h1, h2, h3, h4, h5, h6, h7, h8, h9, h10, h11, h12⟩
    exact ⟨h1, h2, h3, h4, h5, h6, h7, h8.symm, h9.symm, h10.symm, h11.symm, h12.symm⟩
  · rintro ⟨h1, h2, h3, h4, h5, h6, h7, h8, h9, h10, h11, h12⟩
    exact ⟨h1, h2, h3, h4, h5, h6, h7, h8.symm, h9.symm, h10.symm, h11.symm, h12.symm⟩

/-- If the live rule differs from the desired one in IPAddress, PortRange,
IPProtocol, Description or Target, the comparator's verdict is false (these
fields survive the clearing of provider-assigned fields). -/
theorem matches_false_of_diff (d e : ForwardingRule)
    (h : e.IPAddress ≠ d.IPAddress ∨ e.PortRange ≠ d.PortRange ∨
      e.IPProtocol ≠ d.IPProtocol ∨ e.Description ≠ d.Description ∨
      e.Target ≠ d.Target) :
    (forwardingRuleMatches d e).1 = false := by
  simp only [forwardingRuleMatches, decide_eq_false_iff_not]
  intro hc
  rcases h with h | h | h | h | h
  · exact h ((clearProviderFields_config e).2.2.1.symm.trans
      (congrArg ForwardingRule.IPAddress hc))
  · exact h ((clearProviderFields_config e).2.2.2.2.1.symm.trans
      (congrArg ForwardingRule.PortRange hc))
  · exact h ((clearProviderFields_config e).2.2.2.2.2.1.symm.trans
      (congrArg ForwardingRule.IPProtocol hc))
  · exact h ((clearProviderFields_config e).2.1.symm.trans
      (congrArg ForwardingRule.Description hc))
  · exact h ((clearProviderFields_config e).2.2.2.1.symm.trans
      (congrArg ForwardingRule.Target hc))

theorem clear_update_target (fr : ForwardingRule) (t : String) :
    clearProviderFields { fr with Target := t } =
      { clearProviderFields fr with Target := t } := rfl

/-- createForwardingRule always issues exactly its one create call. -/
theorem createForwardingRule_trace (p : Provider) (fr : ForwardingRule) :
    (createForwardingRule p fr).2 = [.create fr] := by
  unfold createForwardingRule
  cases p.CreateGlobalForwardingRule fr <;> rfl

/-- The update path of Ensure: live rule found, mismatch, forceUpdate: the
outcome is updateForwardingRule applied to the cleared live rule (the one
mutated in place by forwardingRuleMatches) and the desired rule. -/
theorem ensure_update_path (s : ForwardingRuleSyncer) (p : Provider)
    (lbName ipAddress targetProxyLink : String) (clusters : List String)
    (desiredFR existingFR : ForwardingRule)
    (hd : s.desiredForwardingRule lbName ipAddress targetProxyLink clusters = .ok desiredFR)
    (hget : p.GetGlobalForwardingRule desiredFR.Name = .ok existingFR)
    (hmis : (forwardingRuleMatches desiredFR existingFR).1 = false) :
    s.EnsureHttpForwardingRule p lbName ipAddress targetProxyLink clusters true =
      updateForwardingRule p (clearProviderFields existingFR) desiredFR := by
  simp only [ForwardingRuleSyncer.EnsureHttpForwardingRule, hd, hget, hmis,
    Bool.false_eq_true, if_false, if_true]
  rfl

/-- C2: when the live rule differs from the desired one only in Target,
Ensure with forceUpdate issues exactly one retarget call — no delete, no
create — and surfaces the retarget call's own outcome. -/
theorem ensure_retarget_only (s : ForwardingRuleSyncer) (p : Provider)
    (lbName ipAddress targetProxyLink : String) (clusters : List String)
    (desiredFR : ForwardingRule) (oldTarget : String)
    (hd : s.desiredForwardingRule lbName ipAddress targetProxyLink clusters = .ok desiredFR)
    (hget : p.GetGlobalForwardingRule desiredFR.Name =
      .ok { desiredFR with Target := oldTarget })
    (hne : oldTarget ≠ desiredFR.Target) :
    s.EnsureHttpForwardingRule p lbName ipAddress targetProxyLink clusters true =
      ((match p.SetProxyForGlobalForwardingRule desiredFR.Name desiredFR.Target with
        | some e => .error (.provider e)
        | none => .ok ()),
       [.retarget desiredFR.Name desiredFR.Target]) := by
  obtain ⟨hclear, -, -, -, -, -, -⟩ :=
    desired_fields s lbName ipAddress targetProxyLink clusters desiredFR hd
  have hmis : (forwardingRuleMatches desiredFR { desiredFR with Target := oldTarget }).1 = false := by
    apply matches_false_of_diff
    right; right; right; right
    simpa using hne
  rw [ensure_update_path s p lbName ipAddress targetProxyLink clusters desiredFR
    { desiredFR with Target := oldTarget } hd hget hmis]
  rw [clear_update_target, hclear]
  unfold updateForwardingRule
  have hcond : ¬(({ desiredFR with Target := oldTarget } : ForwardingRule).IPAddress ≠ desiredFR.IPAddress ∨
      ({ desiredFR with Target := oldTarget } : ForwardingRule).PortRange ≠ desiredFR.PortRange ∨
      ({ desiredFR with Target := oldTarget } : ForwardingRule).IPProtocol ≠ desiredFR.IPProtocol ∨
      ({ desiredFR with Target := oldTarget } : ForwardingRule).Description ≠ desiredFR.Description) := by
    push_neg
    exact ⟨rfl, rfl, rfl, rfl⟩
  rw [if_neg hcond]
  cases p.SetProxyForGlobalForwardingRule desiredFR.Name desiredFR.Target <;> rfl

/-- C3 (amended): when the live rule differs from the desired one in one of
the four fields the update path inspects (IPAddress, PortRange, IPProtocol,
Description), Ensure with forceUpdate deletes by name and recreates: if the
delete succeeds or fails with HTTP 404 (treated as success), exactly one
delete then one create are issued and the create's outcome is surfaced; on
any other delete error the Ensure aborts with that wrapped error and no
create call is made. -/
theorem ensure_destructive_update (s : ForwardingRuleSyncer) (p : Provider)
    (lbName ipAddress targetProxyLink : String) (clusters : List String)
    (desiredFR existingFR : ForwardingRule)
    (hd : s.desiredForwardingRule lbName ipAddress targetProxyLink clusters = .ok desiredFR)
    (hget : p.GetGlobalForwardingRule desiredFR.Name = .ok existingFR)
    (hdiff : existingFR.IPAddress ≠ desiredFR.IPAddress ∨
      existingFR.PortRange ≠ desiredFR.PortRange ∨
      existingFR.IPProtocol ≠ desiredFR.IPProtocol ∨
      existingFR.Description ≠ desiredFR.Description) :
    (ignoreHTTPNotFound (p.DeleteGlobalForwardingRule desiredFR.Name) = none →
      s.EnsureHttpForwardingRule p lbName ipAddress targetProxyLink clusters true =
        ((createForwardingRule p desiredFR).1,
         [.delete desiredFR.Name, .create desiredFR])) ∧
    (∀ e, p.DeleteGlobalForwardingRule desiredFR.Name = some e →
      isHTTPErrorCode e 404 = false →
      s.EnsureHttpForwardingRule p lbName ipAddress targetProxyLink clusters true =
        (.error (.deleteExisting desiredFR.Name e), [.delete desiredFR.Name])) := by
  have hmis : (forwardingRuleMatches desiredFR existingFR).1 = false := by
    apply matches_false_of_diff
    rcases hdiff with h | h | h | h
    · exact Or.inl h
    · exact Or.inr (Or.inl h)
    · exact Or.inr (Or.inr (Or.inl h))
    · exact Or.inr (Or.inr (Or.inr (Or.inl h)))
  have hpath := ensure_update_path s p lbName ipAddress targetProxyLink clusters
    desiredFR existingFR hd hget hmis
  have hcond : ((clearProviderFields existingFR).IPAddress ≠ desiredFR.IPAddress ∨
      (clearProviderFields existingFR).PortRange ≠ desiredFR.PortRange ∨
      (clearProviderFields existingFR).IPProtocol ≠ desiredFR.IPProtocol ∨
      (clearProviderFields existingFR).Description ≠ desiredFR.Description) := hdiff
  constructor
  · intro h404
    rw [hpath]
    unfold updateForwardingRule
    rw [if_pos hcond, h404]
    simp only [createForwardingRule_trace]
  · intro e he hcode
    rw [hpath]
    unfold updateForwardingRule
    rw [if_pos hcond, he]
    simp only [ignoreHTTPNotFound, hcode, Bool.false_eq_true, if_false]

instance : IsTotal String (fun a b => a.data ≤ b.data) :=
  ⟨fun a b => le_total a.data b.data⟩

instance : IsTrans String (fun a b => a.data ≤ b.data) :=
  ⟨fun _ _ _ h1 h2 => le_trans h1 h2⟩

instance : IsAntisymm String (fun a b => a.data ≤ b.data) :=
  ⟨fun a b h1 h2 => by
    have h := le_antisymm h1 h2
    cases a
    cases b
    cases h
    rfl⟩

/-- Sorting is invariant under permutation of the input: both sorts are
sorted and permutations of the same list, hence equal. -/
theorem insertionSort_eq_of_perm (l1 l2 : List String) (h : l1.Perm l2) :
    List.insertionSort (fun a b => a.data ≤ b.data) l1 =
      List.insertionSort (fun a b => a.data ≤ b.data) l2 :=
  List.eq_of_perm_of_sorted
    ((List.perm_insertionSort (fun a b => a.data ≤ b.data) l1).trans
      (h.trans (List.perm_insertionSort (fun a b => a.data ≤ b.data) l2).symm))
    (List.sorted_insertionSort (fun a b => a.data ≤ b.data) l1)
    (List.sorted_insertionSort (fun a b => a.data ≤ b.data) l2)

/-- C5: two cluster lists that are permutations of each other yield the same
desired rule — in particular byte-identical descriptions — and the rule
synthesized from either list is judged a match by the comparator against the
other's result. -/
theorem desiredForwardingRule_order_independent (s : ForwardingRuleSyncer)
    (lbName ipAddress targetProxyLink : String) (l1 l2 : List String)
    (h : l1.Perm l2) :
    s.desiredForwardingRule lbName ipAddress targetProxyLink l1 =
      s.desiredForwardingRule lbName ipAddress targetProxyLink l2 ∧
    ∀ fr1 fr2,
      s.desiredForwardingRule lbName ipAddress targetProxyLink l1 = .ok fr1 →
      s.desiredForwardingRule lbName ipAddress targetProxyLink l2 = .ok fr2 →
      fr1.Description = fr2.Description ∧
        (forwardingRuleMatches fr1 fr2).1 = true := by
  have hs := insertionSort_eq_of_perm l1 l2 h
  have heq : s.desiredForwardingRule lbName ipAddress targetProxyLink l1 =
      s.desiredForwardingRule lbName ipAddress targetProxyLink l2 := by
    rw [ForwardingRuleSyncer.desiredForwardingRule_eq,
      ForwardingRuleSyncer.desiredForwardingRule_eq, hs]
  refine ⟨heq, fun fr1 fr2 h1 h2 => ?_⟩
  rw [heq, h2] at h1
  cases h1
  obtain ⟨hclear, -⟩ :=
    desired_fields s lbName ipAddress targetProxyLink l2 fr1 h2
  refine ⟨rfl, ?_⟩
  simp only [forwardingRuleMatches, hclear, decide_eq_true_eq]

/-- C8: GetLoadBalancerStatus maps an HTTP-404 fetch to the distinct
load-balancer-not-found error, a fetched rule whose description fails to
decode to the distinct status-unavailable error, and a decodable description
to exactly the decoded record; the two error conditions are distinct. -/
theorem getLoadBalancerStatus_taxonomy (s : ForwardingRuleSyncer)
    (p : Provider) (lbName : String) :
    (∀ msg, p.GetGlobalForwardingRule s.namer.HttpForwardingRuleName =
        .error (.http 404 msg) →
      s.GetLoadBalancerStatus p lbName = .error (.loadBalancerNotFound lbName)) ∧
    (∀ fr pe, p.GetGlobalForwardingRule s.namer.HttpForwardingRuleName = .ok fr →
      status.FromString fr.Description = .error pe →
      s.GetLoadBalancerStatus p lbName = .error (.statusUnavailable pe)) ∧
    (∀ fr r, p.GetGlobalForwardingRule s.namer.HttpForwardingRuleName = .ok fr →
      status.FromString fr.Description = .ok r →
      s.GetLoadBalancerStatus p lbName = .ok r) ∧
    (∀ a b, StatusError.loadBalancerNotFound a ≠ StatusError.statusUnavailable b) := by
  refine ⟨fun msg hget => ?_, fun fr pe hget hdec => ?_, fun fr r hget hdec => ?_,
    fun a b hab => StatusError.noConfusion hab⟩
  · simp only [ForwardingRuleSyncer.GetLoadBalancerStatus, hget, isHTTPErrorCode,
      beq_self_eq_true, if_true]
  · simp only [ForwardingRuleSyncer.GetLoadBalancerStatus, hget, hdec]
  · simp only [ForwardingRuleSyncer.GetLoadBalancerStatus, hget, hdec]

/-- C1 (amended): starting from a provider holding no rule under the
computed name, Ensure succeeds with exactly one mutating call — the create
of the desired rule — and an immediately subsequent identical Ensure against
the resulting provider state observes a match, succeeds and performs zero
mutating calls; so the two calls together perform exactly one mutating call. -/
theorem ensure_idempotent_from_absent (s : ForwardingRuleSyncer) (st : Store)
    (lbName ipAddress targetProxyLink : String) (clusters : List String)
    (forceUpdate : Bool) (desiredFR : ForwardingRule)
    (hd : s.desiredForwardingRule lbName ipAddress targetProxyLink clusters = .ok desiredFR)
    (habs : st s.namer.HttpForwardingRuleName = none) :
    s.EnsureHttpForwardingRule (storeProvider st) lbName ipAddress targetProxyLink
        clusters forceUpdate = (.ok (), [.create desiredFR]) ∧
    s.EnsureHttpForwardingRule (storeProvider (applyCalls st [.create desiredFR]))
        lbName ipAddress targetProxyLink clusters forceUpdate = (.ok (), []) := by
  obtain ⟨hclear, hname, -⟩ :=
    desired_fields s lbName ipAddress targetProxyLink clusters desiredFR hd
  have habs' : st desiredFR.Name = none := by rw [hname]; exact habs
  constructor
  · simp only [ForwardingRuleSyncer.EnsureHttpForwardingRule, hd, storeProvider,
      habs', createForwardingRule]
  · have hget1 : (storeProvider (applyCalls st [.create desiredFR])).GetGlobalForwardingRule
        desiredFR.Name = .ok desiredFR := by
      simp [storeProvider, applyCalls, applyCall, List.foldl]
    have hmatch : (forwardingRuleMatches desiredFR desiredFR).1 = true := by
      simp only [forwardingRuleMatches, hclear, decide_eq_true_eq]
    simp only [ForwardingRuleSyncer.EnsureHttpForwardingRule, hd, hget1, hmatch, if_true]

/-! ## Concrete fixtures, counterexamples and witnesses -/

def sampleSyncer : ForwardingRuleSyncer := ⟨⟨"fr1"⟩⟩

/-- The rule desiredForwardingRule synthesizes for lb1 / 1.1.1.1 / proxy1 /
clusters [c1]. -/
def sampleDesired : ForwardingRule :=
  { Name := "fr1"
    Description := "MCIStatus|Http forwarding rule for kubernetes multicluster loadbalancer lb1|lb1|c1|1.1.1.1"
    IPAddress := "1.1.1.1"
    Target := "proxy1"
    PortRange := "80-80"
    IPProtocol := "TCP"
    LoadBalancingScheme := "EXTERNAL" }

def emptyStore : Store := fun _ => none

def sampleExistingIP : ForwardingRule := { sampleDesired with IPAddress := "2.2.2.2" }

def sampleStoreIP : Store := fun n => if n = "fr1" then some sampleExistingIP else none

/-- First Ensure run against a provider holding a rule that differs from the
desired one in IPAddress, with forceUpdate. -/
def c1run1 : Except SyncError Unit × List ProviderCall :=
  sampleSyncer.EnsureHttpForwardingRule (storeProvider sampleStoreIP)
    "lb1" "1.1.1.1" "proxy1" ["c1"] true

/-- Second, identical Ensure run against the provider state left by the
first. -/
def c1run2 : Except SyncError Unit × List ProviderCall :=
  sampleSyncer.EnsureHttpForwardingRule (storeProvider (applyCalls sampleStoreIP c1run1.2))
    "lb1" "1.1.1.1" "proxy1" ["c1"] true

/-- C1 counterexample: two sequential identical Ensure calls, both
succeeding, can perform two mutating provider calls in total (the first
takes the delete-then-recreate path), not exactly one as claimed. -/
theorem ensure_twice_not_single_mutation :
    c1run1.1 = .ok () ∧ c1run2.1 = .ok () ∧
    c1run1.2 = [.delete "fr1", .create sampleDesired] ∧ c1run2.2 = [] ∧
    c1run1.2.length + c1run2.2.length ≠ 1 :=
  ⟨rfl, rfl, rfl, rfl, by decide⟩

theorem ensure_idempotent_from_absent_witness :
    sampleSyncer.desiredForwardingRule "lb1" "1.1.1.1" "proxy1" ["c1"] = .ok sampleDesired ∧
    emptyStore sampleSyncer.namer.HttpForwardingRuleName = none ∧
    (sampleSyncer.EnsureHttpForwardingRule (storeProvider emptyStore)
        "lb1" "1.1.1.1" "proxy1" ["c1"] true = (.ok (), [.create sampleDesired]) ∧
     sampleSyncer.EnsureHttpForwardingRule (storeProvider (applyCalls emptyStore [.create sampleDesired]))
        "lb1" "1.1.1.1" "proxy1" ["c1"] true = (.ok (), [])) :=
  ⟨rfl, rfl, ensure_idempotent_from_absent sampleSyncer emptyStore
    "lb1" "1.1.1.1" "proxy1" ["c1"] true sampleDesired rfl rfl⟩

def sampleOldTargetRule : ForwardingRule := { sampleDesired with Target := "proxy0" }

def sampleStoreRetarget : Store :=
  fun n => if n = "fr1" then some sampleOldTargetRule else none

theorem ensure_retarget_only_witness :
    sampleSyncer.desiredForwardingRule "lb1" "1.1.1.1" "proxy1" ["c1"] = .ok sampleDesired ∧
    (storeProvider sampleStoreRetarget).GetGlobalForwardingRule sampleDesired.Name =
      .ok { sampleDesired with Target := "proxy0" } ∧
    "proxy0" ≠ sampleDesired.Target ∧
    sampleSyncer.EnsureHttpForwardingRule (storeProvider sampleStoreRetarget)
        "lb1" "1.1.1.1" "proxy1" ["c1"] true =
      (.ok (), [.retarget sampleDesired.Name sampleDesired.Target]) :=
  ⟨rfl, rfl, by decide,
    ensure_retarget_only sampleSyncer (storeProvider sampleStoreRetarget)
      "lb1" "1.1.1.1" "proxy1" ["c1"] sampleDesired "proxy0" rfl rfl (by decide)⟩

def sampleExistingScheme : ForwardingRule :=
  { sampleDesired with LoadBalancingScheme := "INTERNAL" }

def sampleStoreScheme : Store :=
  fun n => if n = "fr1" then some sampleExistingScheme else none

/-- C3 counterexample: a live rule differing from the desired one in a field
other than Target — the load-balancing scheme — does not trigger the
delete-then-create path: Ensure issues a single retarget call and no delete
or create, because the update path inspects only IPAddress, PortRange,
IPProtocol and Description. -/
theorem ensure_non_target_diff_retargets :
    sampleExistingScheme.LoadBalancingScheme ≠ sampleDesired.LoadBalancingScheme ∧
    sampleExistingScheme.Target = sampleDesired.Target ∧
    sampleSyncer.EnsureHttpForwardingRule (storeProvider sampleStoreScheme)
        "lb1" "1.1.1.1" "proxy1" ["c1"] true =
      (.ok (), [.retarget "fr1" "proxy1"]) :=
  ⟨by decide, rfl, rfl⟩

theorem ensure_destructive_update_witness :
    sampleSyncer.desiredForwardingRule "lb1" "1.1.1.1" "proxy1" ["c1"] = .ok sampleDesired ∧
    (storeProvider sampleStoreIP).GetGlobalForwardingRule sampleDesired.Name =
      .ok sampleExistingIP ∧
    sampleExistingIP.IPAddress ≠ sampleDesired.IPAddress ∧
    ignoreHTTPNotFound ((storeProvider sampleStoreIP).DeleteGlobalForwardingRule
      sampleDesired.Name) = none ∧
    sampleSyncer.EnsureHttpForwardingRule (storeProvider sampleStoreIP)
        "lb1" "1.1.1.1" "proxy1" ["c1"] true =
      ((createForwardingRule (storeProvider sampleStoreIP) sampleDesired).1,
       [.delete sampleDesired.Name, .create sampleDesired]) :=
  ⟨rfl, rfl, by decide, rfl,
    (ensure_destructive_update sampleSyncer (storeProvider sampleStoreIP)
      "lb1" "1.1.1.1" "proxy1" ["c1"] sampleDesired sampleExistingIP
      rfl rfl (Or.inl (by decide))).1 rfl⟩

theorem ensure_rejected_without_force_witness :
    sampleSyncer.desiredForwardingRule "lb1" "1.1.1.1" "proxy1" ["c1"] = .ok sampleDesired ∧
    (storeProvider sampleStoreIP).GetGlobalForwardingRule sampleDesired.Name =
      .ok sampleExistingIP ∧
    (forwardingRuleMatches sampleDesired sampleExistingIP).1 = false ∧
    sampleSyncer.EnsureHttpForwardingRule (storeProvider sampleStoreIP)
        "lb1" "1.1.1.1" "proxy1" ["c1"] false =
      (.error .rejectedWithoutForce, []) :=
  ⟨rfl, rfl, by decide,
    ensure_rejected_without_force sampleSyncer (storeProvider sampleStoreIP)
      "lb1" "1.1.1.1" "proxy1" ["c1"] sampleDesired sampleExistingIP
      rfl rfl (by decide)⟩

/-- The rule desiredForwardingRule synthesizes for clusters [a, b] (in either
input order). -/
def sampleDesiredAB : ForwardingRule :=
  { Name := "fr1"
    Description := "MCIStatus|Http forwarding rule for kubernetes multicluster loadbalancer lb1|lb1|a,b|1.1.1.1"
    IPAddress := "1.1.1.1"
    Target := "proxy1"
    PortRange := "80-80"
    IPProtocol := "TCP"
    LoadBalancingScheme := "EXTERNAL" }

theorem desiredForwardingRule_order_independent_witness :
    List.Perm ["b", "a"] ["a", "b"] ∧
    sampleSyncer.desiredForwardingRule "lb1" "1.1.1.1" "proxy1" ["b", "a"] =
      sampleSyncer.desiredForwardingRule "lb1" "1.1.1.1" "proxy1" ["a", "b"] ∧
    sampleSyncer.desiredForwardingRule "lb1" "1.1.1.1" "proxy1" ["b", "a"] =
      .ok sampleDesiredAB ∧
    sampleDesiredAB.Description = sampleDesiredAB.Description ∧
    (forwardingRuleMatches sampleDesiredAB sampleDesiredAB).1 = true :=
  ⟨by decide,
   (desiredForwardingRule_order_independent sampleSyncer "lb1" "1.1.1.1" "proxy1"
     ["b", "a"] ["a", "b"] (by decide)).1,
   rfl,
   ((desiredForwardingRule_order_independent sampleSyncer "lb1" "1.1.1.1" "proxy1"
     ["b", "a"] ["a", "b"] (by decide)).2 sampleDesiredAB sampleDesiredAB rfl rfl).1,
   ((desiredForwardingRule_order_independent sampleSyncer "lb1" "1.1.1.1" "proxy1"
     ["b", "a"] ["a", "b"] (by decide)).2 sampleDesiredAB sampleDesiredAB rfl rfl).2⟩

theorem ensure_fetch_error_falls_through_to_create_witness :
    sampleSyncer.desiredForwardingRule "lb1" "1.1.1.1" "proxy1" ["c1"] = .ok sampleDesired ∧
    (storeProvider emptyStore).GetGlobalForwardingRule sampleDesired.Name =
      .error (.http 404 "not found") ∧
    sampleSyncer.EnsureHttpForwardingRule (storeProvider emptyStore)
        "lb1" "1.1.1.1" "proxy1" ["c1"] true =
      createForwardingRule (storeProvider emptyStore) sampleDesired :=
  ⟨rfl, rfl,
    ensure_fetch_error_falls_through_to_create sampleSyncer (storeProvider emptyStore)
      "lb1" "1.1.1.1" "proxy1" ["c1"] true sampleDesired (.http 404 "not found")
      rfl rfl⟩

def badRule : ForwardingRule := { Name := "fr1", Description := "garbage" }

def sampleStoreBad : Store := fun n => if n = "fr1" then some badRule else none

def sampleStoreGood : Store := fun n => if n = "fr1" then some sampleDesired else none

/-- The record sampleDesired's description decodes to. -/
def sampleStatus : LoadBalancerStatus :=
  { Description := "Http forwarding rule for kubernetes multicluster loadbalancer lb1"
    LoadBalancerName := "lb1"
    Clusters := ["c1"]
    IPAddress := "1.1.1.1" }

theorem getLoadBalancerStatus_taxonomy_witness :
    (storeProvider emptyStore).GetGlobalForwardingRule
        sampleSyncer.namer.HttpForwardingRuleName = .error (.http 404 "not found") ∧
    sampleSyncer.GetLoadBalancerStatus (storeProvider emptyStore) "lb1" =
      .error (.loadBalancerNotFound "lb1") ∧
    status.FromString badRule.Description = .error "invalid status description: garbage" ∧
    sampleSyncer.GetLoadBalancerStatus (storeProvider sampleStoreBad) "lb1" =
      .error (.statusUnavailable "invalid status description: garbage") ∧
    status.FromString sampleDesired.Description = .ok sampleStatus ∧
    sampleSyncer.GetLoadBalancerStatus (storeProvider sampleStoreGood) "lb1" =
      .ok sampleStatus ∧
    StatusError.loadBalancerNotFound "lb1" ≠ StatusError.statusUnavailable "x" :=
  ⟨rfl,
   (getLoadBalancerStatus_taxonomy sampleSyncer (storeProvider emptyStore) "lb1").1
     "not found" rfl,
   rfl,
   (getLoadBalancerStatus_taxonomy sampleSyncer (storeProvider sampleStoreBad) "lb1").2.1
     badRule "invalid status description: garbage" rfl rfl,
   rfl,
   (getLoadBalancerStatus_taxonomy sampleSyncer (storeProvider sampleStoreGood) "lb1").2.2.1
     sampleDesired sampleStatus rfl rfl,
   (getLoadBalancerStatus_taxonomy sampleSyncer (storeProvider emptyStore) "lb1").2.2.2
     "lb1" "x"⟩

theorem deleteForwardingRules_surfaces_all_errors_witness :
    (storeProvider emptyStore).DeleteGlobalForwardingRule
        sampleSyncer.namer.HttpForwardingRuleName = some (.http 404 "not found") ∧
    sampleSyncer.DeleteForwardingRules (storeProvider emptyStore) =
      (.error (.provider (.http 404 "not found")),
       [.delete sampleSyncer.namer.HttpForwardingRuleName]) :=
  ⟨rfl, deleteForwardingRules_surfaces_all_errors sampleSyncer
    (storeProvider emptyStore) (.http 404 "not found") rfl⟩
